import Mathlib

set_option autoImplicit false

/-!
Verification of the memu-v3 MCP server (src/index.ts).

The file embeds the configuration resolver, the HTTP client adapter
(request construction and response handling), the five tool handlers
(request bodies and response formatters) as executable Lean definitions,
and proves the documented properties about them.
-/

namespace MemuV3

/-! Constants from the top of src/index.ts. -/

def MEMU_BASE_URL : String := "https://api.memu.so"

def AGENT_ID : String := "claude-code"

/-- JS truthiness of an optional string value: `undefined` (modelled as
`none`) and the empty string are falsy, every other string is truthy. -/
def truthyS : Option String → Bool
  | none => false
  | some s => s != ""

/-- Process environment: the two variables the server reads.  `none`
models an unset variable. -/
structure Env where
  MEMU_API_KEY : Option String
  MEMU_USER_ID : Option String
deriving Repr, DecidableEq

structure Config where
  apiKey : String
  userId : String
deriving Repr, DecidableEq

def apiKeyMissingMsg : String := "MEMU_API_KEY が設定されていません"

def userIdMissingMsg : String := "MEMU_USER_ID が設定されていません"

/-- Embedding of `getConfig`: reads both variables, throws (here: returns
`Except.error`) when either is unset or empty, in that order. -/
def getConfig (env : Env) : Except String Config :=
  if !truthyS env.MEMU_API_KEY then .error apiKeyMissingMsg
  else if !truthyS env.MEMU_USER_ID then .error userIdMissingMsg
  else .ok { apiKey := env.MEMU_API_KEY.getD "", userId := env.MEMU_USER_ID.getD "" }

/-! A small JSON value type for request bodies and response payloads. -/

inductive Json where
  | null
  | str (s : String)
  | arr (xs : List Json)
  | obj (fields : List (String × Json))
deriving Repr

/-- An outbound HTTP request as `memuFetch` builds it. -/
structure HttpRequest where
  method : String
  url : String
  hasAuthHeader : Bool
  contentTypeJson : Bool
  body : Option Json
deriving Repr

/-- The request-construction half of `memuFetch` (after `getConfig`
succeeded): default method POST, Authorization header always, JSON
content type and serialized body only for non-GET requests with a body. -/
def buildRequest (path : String) (methodArg : Option String) (bodyArg : Option Json) :
    HttpRequest :=
  let method := methodArg.getD "POST"
  let withBody := method != "GET" && bodyArg.isSome
  { method := method
    url := MEMU_BASE_URL ++ path
    hasAuthHeader := true
    contentTypeJson := withBody
    body := if withBody then bodyArg else none }

/-- Errors the server can raise, one constructor per kind. -/
inductive MemuError where
  | config (msg : String)
  | schema (msg : String)
  | auth
  | validation (text : String)
  | rateLimit
  | api (status : Nat) (text : String)
deriving Repr, DecidableEq

/-- The message text of each thrown `Error`, verbatim from the source. -/
def errorMessage : MemuError → String
  | .config m => m
  | .schema m => m
  | .auth => "認証エラー: API キーが無効です"
  | .validation t => "バリデーションエラー: " ++ t
  | .rateLimit => "レート制限に達しました。しばらく待ってから再試行してください"
  | .api s t => "MemU API エラー (" ++ toString s ++ "): " ++ t

/-- Config resolution plus request construction of `memuFetch`: the
request is only built when `getConfig` succeeds. -/
def memuFetchRequest (env : Env) (path : String) (methodArg : Option String)
    (bodyArg : Option Json) : Except MemuError HttpRequest :=
  match getConfig env with
  | .error m => .error (.config m)
  | .ok _ => .ok (buildRequest path methodArg bodyArg)

/-- An inbound HTTP response: status code, raw text, parsed JSON body. -/
structure HttpResponse where
  status : Nat
  text : String
  json : Json
deriving Repr

/-- The `res.ok` predicate of fetch: status in the range 200-299. -/
def resOk (status : Nat) : Bool := 200 ≤ status && status ≤ 299

/-- The response-handling half of `memuFetch`: the status switch on
non-ok responses, and the parsed JSON body on ok responses. -/
def memuFetchHandle (res : HttpResponse) : Except MemuError Json :=
  if resOk res.status then .ok res.json
  else
    match res.status with
    | 401 => .error .auth
    | 422 => .error (.validation res.text)
    | 429 => .error .rateLimit
    | s => .error (.api s res.text)

/-! Conversation messages (MessageSchema) and their JSON serialization. -/

inductive Role where
  | user
  | assistant
deriving Repr, DecidableEq

def Role.toJsonStr : Role → String
  | .user => "user"
  | .assistant => "assistant"

structure Message where
  role : Role
  content : String
  name : Option String
  created_at : Option String
deriving Repr, DecidableEq

/-- JSON.stringify of a message: optional fields that are `undefined`
are omitted. -/
def messageJson (m : Message) : Json :=
  .obj ([("role", .str m.role.toJsonStr), ("content", .str m.content)]
    ++ (match m.name with | some n => [("name", .str n)] | none => [])
    ++ (match m.created_at with | some t => [("created_at", .str t)] | none => []))

/-! Tool: memu_memorize. -/

structure MemorizeInput where
  conversation : List Message
  session_date : Option String
deriving Repr, DecidableEq

/-- The zod schema constraint on the memorize input: the conversation
array has `.min(3)`. -/
def memorizeSchemaOk (inp : MemorizeInput) : Bool :=
  3 ≤ inp.conversation.length

def memorizeMinMsg : String := "Array must contain at least 3 element(s)"

/-- The memorize request body; `now` stands for `new Date().toISOString()`,
used when `session_date` is absent. -/
def memorizeBodyFields (cfg : Config) (inp : MemorizeInput) (now : String) :
    List (String × Json) :=
  [("conversation", .arr (inp.conversation.map messageJson)),
   ("user_id", .str cfg.userId),
   ("agent_id", .str AGENT_ID),
   ("agent_name", .str "Claude Code"),
   ("session_date", .str (inp.session_date.getD now))]

def memorizeRequest (cfg : Config) (inp : MemorizeInput) (now : String) : HttpRequest :=
  buildRequest "/api/v3/memory/memorize" none (some (.obj (memorizeBodyFields cfg inp now)))

/-- The memorize tool invocation up to the point the network request is
sent: schema validation by the dispatcher, then `getConfig` in the
handler, then `memuFetch` config resolution and request construction. -/
def memorizeInvoke (env : Env) (inp : MemorizeInput) (now : String) :
    Except MemuError HttpRequest :=
  if !memorizeSchemaOk inp then .error (.schema memorizeMinMsg)
  else
    match getConfig env with
    | .error m => .error (.config m)
    | .ok cfg =>
        memuFetchRequest env "/api/v3/memory/memorize" none
          (some (.obj (memorizeBodyFields cfg inp now)))

/-- The network requests an invocation outcome has issued: none when it
failed before the fetch, exactly one otherwise. -/
def requestsMade (r : Except MemuError HttpRequest) : List HttpRequest :=
  match r with
  | .error _ => []
  | .ok req => [req]

/-- JS `Array.prototype.join(sep)`: elements interleaved with the
separator, the empty string for the empty array. -/
def joinSep (sep : String) : List String → String
  | [] => ""
  | [a] => a
  | a :: rest => a ++ sep ++ joinSep sep rest

/-! Tool: memu_memorize_status. -/

def hexDigit (n : Nat) : Char :=
  if n < 10 then Char.ofNat (48 + n) else Char.ofNat (55 + n)

def percentByte (b : Nat) : String :=
  String.mk [Char.ofNat 37, hexDigit (b / 16 % 16), hexDigit (b % 16)]

/-- Characters encodeURIComponent leaves as-is. -/
def uriUnreservedChar (c : Char) : Bool :=
  c.isAlpha || c.isDigit ||
    [Char.ofNat 45, Char.ofNat 95, Char.ofNat 46, Char.ofNat 33, Char.ofNat 126,
     Char.ofNat 42, Char.ofNat 39, Char.ofNat 40, Char.ofNat 41].contains c

/-- Model of the JS builtin encodeURIComponent: unreserved characters are
kept, every other character is percent-encoded byte by byte in UTF-8. -/
def encodeURIComponent (s : String) : String :=
  String.join (s.toList.map fun c =>
    if uriUnreservedChar c then String.singleton c
    else String.join (((String.singleton c).toUTF8.toList.map fun b => percentByte b.toNat)))

def statusPath (task_id : String) : String :=
  "/api/v3/memory/memorize/status/" ++ encodeURIComponent task_id

def statusRequest (task_id : String) : HttpRequest :=
  buildRequest (statusPath task_id) (some "GET") none

/-- The memorize_status tool invocation up to the network request:
the handler goes straight to `memuFetch` with method GET and no body. -/
def statusInvoke (env : Env) (task_id : String) : Except MemuError HttpRequest :=
  memuFetchRequest env (statusPath task_id) (some "GET") none

/-- The JSON payload the status endpoint returns, as the handler reads it. -/
structure StatusResult where
  status : Option String
  created_at : Option String
  completed_at : Option String
deriving Repr, DecidableEq

/-- Embedding of the memorize_status formatter: the status line first
(status defaulting to UNKNOWN), then the start line when `created_at` is
truthy, then the completion line when `completed_at` is truthy, joined
with newlines. -/
def formatStatus (r : StatusResult) : String :=
  let status := r.status.getD "UNKNOWN"
  let parts := ["ステータス: **" ++ status ++ "**"]
  let parts := if truthyS r.created_at then parts ++ ["開始: " ++ r.created_at.getD ""] else parts
  let parts := if truthyS r.completed_at then parts ++ ["完了: " ++ r.completed_at.getD ""] else parts
  joinSep "\n" parts

/-! Tool: memu_retrieve. -/

/-- The polymorphic query input: plain text or a conversation array. -/
inductive Query where
  | text (s : String)
  | conv (ms : List Message)
deriving Repr, DecidableEq

def queryJson : Query → Json
  | .text s => .str s
  | .conv ms => .arr (ms.map messageJson)

def retrieveBodyFields (cfg : Config) (q : Query) : List (String × Json) :=
  [("user_id", .str cfg.userId), ("agent_id", .str AGENT_ID), ("query", queryJson q)]

def retrieveRequest (cfg : Config) (q : Query) : HttpRequest :=
  buildRequest "/api/v3/memory/retrieve" none (some (.obj (retrieveBodyFields cfg q)))

def retrieveInvoke (env : Env) (q : Query) : Except MemuError HttpRequest :=
  match getConfig env with
  | .error m => .error (.config m)
  | .ok cfg =>
      memuFetchRequest env "/api/v3/memory/retrieve" none (some (.obj (retrieveBodyFields cfg q)))

structure Category where
  name : String
  description : Option String
  summary : Option String
deriving Repr, DecidableEq

structure MemoryItem where
  memory_type : Option String
  content : String
deriving Repr, DecidableEq

structure Resource where
  resource_url : String
  caption : Option String
  modality : Option String
  content : Option String
deriving Repr, DecidableEq

/-- The retrieve response payload, as the handler reads it. -/
structure RetrieveResult where
  rewritten_query : Option String
  categories : Option (List Category)
  items : Option (List MemoryItem)
  resources : Option (List Resource)
deriving Repr, DecidableEq

/-- The lines pushed for one category inside the retrieve loop. -/
def catLines (c : Category) : List String :=
  ["### " ++ c.name]
    ++ (if truthyS c.description then [c.description.getD ""] else [])
    ++ (if truthyS c.summary then [c.summary.getD ""] else [])

/-- The bullet line pushed for one memory item. -/
def itemLine (it : MemoryItem) : String :=
  let tag := if truthyS it.memory_type then "[" ++ it.memory_type.getD "" ++ "]" else ""
  "- " ++ tag ++ " " ++ it.content

/-- The link line pushed for one resource; the label uses nullish
coalescing on caption and modality. -/
def resourceLine (r : Resource) : String :=
  let label :=
    match r.caption with
    | some c => c
    | none =>
        match r.modality with
        | some m => m
        | none => "resource"
  "- [" ++ label ++ "](" ++ r.resource_url ++ "): " ++ r.content.getD ""

/-- The `parts` array the retrieve handler builds, push by push: the
rewritten-query quote when truthy, the category block when
`categories?.length` is truthy, the item block and the resource block
likewise. -/
def retrieveParts (r : RetrieveResult) : List String :=
  let parts : List String := []
  let parts := if truthyS r.rewritten_query
    then parts ++ ["> 書き換えクエリ: " ++ r.rewritten_query.getD ""] else parts
  let parts := if (r.categories.getD []).length != 0
    then parts ++ ["## カテゴリ"] ++ ((r.categories.getD []).map catLines).flatten else parts
  let parts := if (r.items.getD []).length != 0
    then parts ++ ["\n## 記憶アイテム"] ++ (r.items.getD []).map itemLine else parts
  let parts := if (r.resources.getD []).length != 0
    then parts ++ ["\n## リソース"] ++ (r.resources.getD []).map resourceLine else parts
  parts

def notFoundText : String := "関連する記憶は見つかりませんでした。"

/-- Embedding of the retrieve formatter: the joined parts when any were
pushed, the fixed fallback text otherwise. -/
def formatRetrieve (r : RetrieveResult) : String :=
  if 0 < (retrieveParts r).length then joinSep "\n" (retrieveParts r)
  else notFoundText

/-! Spec-side decomposition of the retrieve output into its four
sections, written from the specified section order. -/

def sectionQuery (r : RetrieveResult) : List String :=
  if truthyS r.rewritten_query then ["> 書き換えクエリ: " ++ r.rewritten_query.getD ""] else []

def sectionCategories (r : RetrieveResult) : List String :=
  if (r.categories.getD []).length != 0
  then ["## カテゴリ"] ++ ((r.categories.getD []).map catLines).flatten else []

def sectionItems (r : RetrieveResult) : List String :=
  if (r.items.getD []).length != 0
  then ["\n## 記憶アイテム"] ++ (r.items.getD []).map itemLine else []

def sectionResources (r : RetrieveResult) : List String :=
  if (r.resources.getD []).length != 0
  then ["\n## リソース"] ++ (r.resources.getD []).map resourceLine else []

/-! Tool: memu_categories. -/

def categoriesBodyFields (cfg : Config) : List (String × Json) :=
  [("user_id", .str cfg.userId), ("agent_id", .str AGENT_ID)]

def categoriesRequest (cfg : Config) : HttpRequest :=
  buildRequest "/api/v3/memory/categories" none (some (.obj (categoriesBodyFields cfg)))

def categoriesInvoke (env : Env) : Except MemuError HttpRequest :=
  match getConfig env with
  | .error m => .error (.config m)
  | .ok cfg =>
      memuFetchRequest env "/api/v3/memory/categories" none
        (some (.obj (categoriesBodyFields cfg)))

structure CategoriesResult where
  categories : Option (List Category)
deriving Repr, DecidableEq

def noCategoriesText : String := "まだカテゴリがありません。"

/-- The line the categories handler maps each category to. -/
def categoryEntry (c : Category) : String :=
  let desc := if truthyS c.description then ": " ++ c.description.getD "" else ""
  let summary := if truthyS c.summary then "\n  " ++ c.summary.getD "" else ""
  "- **" ++ c.name ++ "**" ++ desc ++ summary

/-- Embedding of the categories formatter: the fixed text when
`categories?.length` is falsy, the header plus the joined entries
otherwise. -/
def formatCategories (r : CategoriesResult) : String :=
  if (r.categories.getD []).length == 0 then noCategoriesText
  else "## 記憶カテゴリ一覧\n"
    ++ joinSep "\n" ((r.categories.getD []).map categoryEntry)

/-! Tool: memu_delete. -/

/-- The delete request body: `user_id` always, `agent_id` only when the
argument is truthy (present and non-empty). -/
def deleteBody (cfg : Config) (agent_id : Option String) : List (String × Json) :=
  [("user_id", .str cfg.userId)]
    ++ (if truthyS agent_id then [("agent_id", .str (agent_id.getD ""))] else [])

def deleteRequest (cfg : Config) (agent_id : Option String) : HttpRequest :=
  buildRequest "/api/v3/memory/delete" none (some (.obj (deleteBody cfg agent_id)))

def deleteInvoke (env : Env) (agent_id : Option String) : Except MemuError HttpRequest :=
  match getConfig env with
  | .error m => .error (.config m)
  | .ok cfg =>
      memuFetchRequest env "/api/v3/memory/delete" none (some (.obj (deleteBody cfg agent_id)))

/-- Does a request carry a body field with the given key? -/
def reqHasField (r : HttpRequest) (key : String) : Bool :=
  match r.body with
  | some (Json.obj fs) => fs.any fun p => p.fst == key
  | _ => false

/-! Theorems. -/

/-- Claim C1: a memorize invocation whose conversation has fewer than 3
messages is rejected by the schema (the `.min(3)` constraint) before the
handler runs, so no network request is made. -/
theorem memorize_rejects_short_conversations (env : Env) (inp : MemorizeInput)
    (now : String) (h : inp.conversation.length < 3) :
    memorizeInvoke env inp now = .error (.schema memorizeMinMsg)
    ∧ requestsMade (memorizeInvoke env inp now) = [] := by
  have hb : memorizeSchemaOk inp = false := by
    unfold memorizeSchemaOk
    simp only [decide_eq_false_iff_not]
    omega
  refine ⟨?_, ?_⟩ <;> simp [memorizeInvoke, hb, requestsMade]

def shortConv : MemorizeInput :=
  ⟨[⟨.user, "hi", none, none⟩, ⟨.assistant, "hello", none, none⟩], none⟩

/-- Witness for C1 at a concrete two-message conversation. -/
theorem memorize_rejects_short_conversations_witness :
    memorizeInvoke ⟨some "k", some "u"⟩ shortConv "2024-01-01T00:00:00Z"
      = .error (.schema memorizeMinMsg)
    ∧ requestsMade (memorizeInvoke ⟨some "k", some "u"⟩ shortConv "2024-01-01T00:00:00Z")
      = [] :=
  memorize_rejects_short_conversations ⟨some "k", some "u"⟩ shortConv
    "2024-01-01T00:00:00Z" (by decide)

/-- Claim C2: the adapter maps a 401 response to the authentication
error, a 422 response to the validation error carrying the raw text, a
429 response to the rate-limit error, any other non-2xx response to the
generic API error carrying status and raw text, and returns the parsed
JSON body of any 2xx response; the validation and generic messages
literally embed the raw response text (and, for the generic one, the
status code). -/
theorem memuFetch_error_mapping (res : HttpResponse) :
    (res.status = 401 → memuFetchHandle res = .error .auth)
    ∧ (res.status = 422 → memuFetchHandle res = .error (.validation res.text))
    ∧ (res.status = 429 → memuFetchHandle res = .error .rateLimit)
    ∧ (resOk res.status = false → res.status ≠ 401 → res.status ≠ 422 →
        res.status ≠ 429 → memuFetchHandle res = .error (.api res.status res.text))
    ∧ (resOk res.status = true → memuFetchHandle res = .ok res.json)
    ∧ errorMessage (.validation res.text) = "バリデーションエラー: " ++ res.text
    ∧ errorMessage (.api res.status res.text)
        = "MemU API エラー (" ++ toString res.status ++ "): " ++ res.text := by
  obtain ⟨s, t, j⟩ := res
  refine ⟨?_, ?_, ?_, ?_, ?_, rfl, rfl⟩
  · rintro rfl; rfl
  · rintro rfl; rfl
  · rintro rfl; rfl
  · intro hok h1 h2 h3
    unfold memuFetchHandle
    simp only [hok, Bool.false_eq_true, if_false]
  · intro hok
    unfold memuFetchHandle
    simp [hok]

/-- Witness for C2 at concrete responses with statuses 401, 422, 429,
500 and 200. -/
theorem memuFetch_error_mapping_witness :
    memuFetchHandle ⟨401, "t", .null⟩ = .error .auth
    ∧ memuFetchHandle ⟨422, "detail", .null⟩ = .error (.validation "detail")
    ∧ memuFetchHandle ⟨429, "t", .null⟩ = .error .rateLimit
    ∧ memuFetchHandle ⟨500, "boom", .null⟩ = .error (.api 500 "boom")
    ∧ memuFetchHandle ⟨200, "", .obj []⟩ = .ok (.obj []) :=
  ⟨(memuFetch_error_mapping ⟨401, "t", .null⟩).1 rfl,
   (memuFetch_error_mapping ⟨422, "detail", .null⟩).2.1 rfl,
   (memuFetch_error_mapping ⟨429, "t", .null⟩).2.2.1 rfl,
   (memuFetch_error_mapping ⟨500, "boom", .null⟩).2.2.2.1 (by decide)
     (by decide) (by decide) (by decide),
   (memuFetch_error_mapping ⟨200, "", .obj []⟩).2.2.2.2.1 (by decide)⟩

def threeConv : MemorizeInput :=
  ⟨[⟨.user, "a", none, none⟩, ⟨.assistant, "b", none, none⟩, ⟨.user, "c", none, none⟩], none⟩

/-- Claim C3: when MEMU_API_KEY or MEMU_USER_ID is unset or empty, every
tool invocation (given input that passes its schema) fails with the
configuration error naming the missing variable, and no network request
is made by any of the five tools. -/
theorem missing_env_fails_before_fetch (env : Env) (inp : MemorizeInput) (now : String)
    (task_id : String) (q : Query) (agent_id : Option String)
    (hschema : memorizeSchemaOk inp = true)
    (hmiss : truthyS env.MEMU_API_KEY = false ∨ truthyS env.MEMU_USER_ID = false) :
    ∃ msg, getConfig env = .error msg
      ∧ (truthyS env.MEMU_API_KEY = false → msg = apiKeyMissingMsg)
      ∧ (truthyS env.MEMU_API_KEY = true → msg = userIdMissingMsg)
      ∧ memorizeInvoke env inp now = .error (.config msg)
      ∧ statusInvoke env task_id = .error (.config msg)
      ∧ retrieveInvoke env q = .error (.config msg)
      ∧ categoriesInvoke env = .error (.config msg)
      ∧ deleteInvoke env agent_id = .error (.config msg)
      ∧ requestsMade (memorizeInvoke env inp now) = []
      ∧ requestsMade (statusInvoke env task_id) = []
      ∧ requestsMade (retrieveInvoke env q) = []
      ∧ requestsMade (categoriesInvoke env) = []
      ∧ requestsMade (deleteInvoke env agent_id) = [] := by
  by_cases hk : truthyS env.MEMU_API_KEY = false
  · have hg : getConfig env = .error apiKeyMissingMsg := by
      simp [getConfig, hk]
    refine ⟨apiKeyMissingMsg, hg, fun _ => rfl, ?_, ?_⟩
    · intro hkt; rw [hk] at hkt; exact absurd hkt (by decide)
    · refine ⟨?_, ?_, ?_, ?_, ?_, ?_, ?_, ?_, ?_, ?_⟩ <;>
        simp [memorizeInvoke, statusInvoke, retrieveInvoke, categoriesInvoke,
          deleteInvoke, memuFetchRequest, hschema, hg, requestsMade]
  · have hkt : truthyS env.MEMU_API_KEY = true := by
      cases h : truthyS env.MEMU_API_KEY
      · exact absurd h hk
      · rfl
    have hu : truthyS env.MEMU_USER_ID = false := by
      rcases hmiss with h | h
      · exact absurd h hk
      · exact h
    have hg : getConfig env = .error userIdMissingMsg := by
      simp [getConfig, hkt, hu]
    refine ⟨userIdMissingMsg, hg, ?_, fun _ => rfl, ?_⟩
    · intro hkf; rw [hkt] at hkf; exact absurd hkf (by decide)
    · refine ⟨?_, ?_, ?_, ?_, ?_, ?_, ?_, ?_, ?_, ?_⟩ <;>
        simp [memorizeInvoke, statusInvoke, retrieveInvoke, categoriesInvoke,
          deleteInvoke, memuFetchRequest, hschema, hg, requestsMade]

/-- Witness for C3 at an environment with the API key unset, for a
schema-valid three-message conversation and concrete tool inputs. -/
theorem missing_env_fails_before_fetch_witness :
    getConfig ⟨none, some "u"⟩ = .error apiKeyMissingMsg
    ∧ categoriesInvoke ⟨none, some "u"⟩ = .error (.config apiKeyMissingMsg)
    ∧ requestsMade (categoriesInvoke ⟨none, some "u"⟩) = [] := by
  obtain ⟨msg, hg, hname, _, _, _, _, hcat, _, _, _, _, hcr, _⟩ :=
    missing_env_fails_before_fetch ⟨none, some "u"⟩ threeConv "2024-01-01T00:00:00Z"
      "task1" (.text "q") none (by decide) (Or.inl (by decide))
  have hm : msg = apiKeyMissingMsg := hname (by decide)
  subst hm
  exact ⟨hg, hcat, hcr⟩

/-- The parts array the retrieve handler builds is the concatenation of
the four sections in the documented order. -/
theorem retrieveParts_eq_sections (r : RetrieveResult) :
    retrieveParts r
      = sectionQuery r ++ sectionCategories r ++ sectionItems r ++ sectionResources r := by
  unfold retrieveParts sectionQuery sectionCategories sectionItems sectionResources
  by_cases h1 : truthyS r.rewritten_query <;>
    by_cases h2 : ((r.categories.getD []).length != 0) = true <;>
      by_cases h3 : ((r.items.getD []).length != 0) = true <;>
        by_cases h4 : ((r.resources.getD []).length != 0) = true <;>
          simp [h1, h2, h3, h4]

/-- Claim C4: the retrieve output is the newline-join of the rewritten
query, category, item and resource sections in that fixed order (the
fixed fallback text when all four are empty), and each section is
non-empty exactly when its field is present and non-empty. -/
theorem retrieve_output_sections (r : RetrieveResult) :
    formatRetrieve r
      = (if sectionQuery r ++ sectionCategories r ++ sectionItems r ++ sectionResources r = []
         then notFoundText
         else joinSep "\n"
           (sectionQuery r ++ sectionCategories r ++ sectionItems r ++ sectionResources r))
    ∧ (sectionQuery r = [] ↔ truthyS r.rewritten_query = false)
    ∧ (sectionCategories r = [] ↔ (r.categories.getD []).length = 0)
    ∧ (sectionItems r = [] ↔ (r.items.getD []).length = 0)
    ∧ (sectionResources r = [] ↔ (r.resources.getD []).length = 0) := by
  refine ⟨?_, ?_, ?_, ?_, ?_⟩
  · rw [formatRetrieve, retrieveParts_eq_sections]
    by_cases h : sectionQuery r ++ sectionCategories r ++ sectionItems r ++ sectionResources r = []
    · rw [if_pos h, h]
      simp
    · rw [if_neg h, if_pos (List.length_pos.mpr h)]
  · unfold sectionQuery
    by_cases h : truthyS r.rewritten_query <;> simp [h]
  · unfold sectionCategories
    by_cases h : ((r.categories.getD []).length != 0) = true <;> simp_all
  · unfold sectionItems
    by_cases h : ((r.items.getD []).length != 0) = true <;> simp_all
  · unfold sectionResources
    by_cases h : ((r.resources.getD []).length != 0) = true <;> simp_all

def rewrittenOnlyResult : RetrieveResult := ⟨some "q", none, none, none⟩

/-- Counterexample for C5: a response carrying only a rewritten query
has none of categories, items and resources, yet the output is the
rewritten-query line, not the fixed fallback text. -/
theorem retrieve_rewritten_only_not_fallback :
    rewrittenOnlyResult.categories = none
    ∧ rewrittenOnlyResult.items = none
    ∧ rewrittenOnlyResult.resources = none
    ∧ formatRetrieve rewrittenOnlyResult = "> 書き換えクエリ: q"
    ∧ formatRetrieve rewrittenOnlyResult ≠ notFoundText := by
  refine ⟨rfl, rfl, rfl, rfl, ?_⟩
  decide

/-- Claim C5 as amended: when none of categories, items and resources
are present and no rewritten query is present either, the retrieve
output is exactly the fixed fallback text. -/
theorem retrieve_empty_response_fallback (r : RetrieveResult)
    (hq : r.rewritten_query = none) (hc : r.categories = none)
    (hi : r.items = none) (hr : r.resources = none) :
    formatRetrieve r = notFoundText := by
  obtain ⟨rq, rc, ri, rr⟩ := r
  simp only at hq hc hi hr
  subst hq hc hi hr
  rfl

/-- Witness for the amended C5 at the all-absent response. -/
theorem retrieve_empty_response_fallback_witness :
    formatRetrieve ⟨none, none, none, none⟩ = notFoundText :=
  retrieve_empty_response_fallback ⟨none, none, none, none⟩ rfl rfl rfl rfl

/-- Counterexample for C6: with agent_id set to the empty string the
delete body still contains only user_id, because the handler adds the
field only when the argument is truthy. -/
theorem delete_empty_agent_counterexample :
    (deleteBody ⟨"k", "u"⟩ (some "")).map Prod.fst = ["user_id"]
    ∧ ((deleteBody ⟨"k", "u"⟩ (some "")).map Prod.fst).contains "agent_id" = false := by
  exact ⟨rfl, rfl⟩

/-- Claim C6 as amended: a delete invocation without agent_id sends a
body containing only user_id; with agent_id set to a non-empty string
the body contains exactly user_id and agent_id. -/
theorem delete_body_fields (cfg : Config) (a : String) (h : a ≠ "") :
    deleteBody cfg none = [("user_id", Json.str cfg.userId)]
    ∧ deleteBody cfg (some a)
        = [("user_id", Json.str cfg.userId), ("agent_id", Json.str a)] := by
  refine ⟨rfl, ?_⟩
  simp [deleteBody, truthyS, h]

/-- Witness for the amended C6 at a concrete configuration and a
non-empty agent id. -/
theorem delete_body_fields_witness :
    deleteBody ⟨"k", "u"⟩ none = [("user_id", Json.str "u")]
    ∧ deleteBody ⟨"k", "u"⟩ (some "other-agent")
        = [("user_id", Json.str "u"), ("agent_id", Json.str "other-agent")] :=
  delete_body_fields ⟨"k", "u"⟩ "other-agent" (by decide)

/-- Counterexample for C7: the memorize_status request is a bodyless GET
and carries neither user_id nor agent_id. -/
theorem status_request_no_ids_counterexample :
    statusInvoke ⟨some "k", some "u"⟩ "abc123" = .ok (statusRequest "abc123")
    ∧ (statusRequest "abc123").method = "GET"
    ∧ (statusRequest "abc123").body = none
    ∧ reqHasField (statusRequest "abc123") "user_id" = false
    ∧ reqHasField (statusRequest "abc123") "agent_id" = false :=
  ⟨rfl, rfl, rfl, rfl, rfl⟩

/-- Claim C7 as amended: every outbound POST request carries the
configured user_id in its JSON body; the memorize, retrieve and
categories requests also carry the fixed agent_id, the delete request
carries agent_id exactly when a truthy (non-empty) agent_id argument was
supplied, and the memorize_status GET request has no body at all. -/
theorem outbound_requests_carry_ids (cfg : Config) (inp : MemorizeInput) (now : String)
    (q : Query) (a : Option String) (t : String) :
    (memorizeRequest cfg inp now).body = some (.obj (memorizeBodyFields cfg inp now))
    ∧ ("user_id", Json.str cfg.userId) ∈ memorizeBodyFields cfg inp now
    ∧ ("agent_id", Json.str AGENT_ID) ∈ memorizeBodyFields cfg inp now
    ∧ (retrieveRequest cfg q).body = some (.obj (retrieveBodyFields cfg q))
    ∧ ("user_id", Json.str cfg.userId) ∈ retrieveBodyFields cfg q
    ∧ ("agent_id", Json.str AGENT_ID) ∈ retrieveBodyFields cfg q
    ∧ (categoriesRequest cfg).body = some (.obj (categoriesBodyFields cfg))
    ∧ ("user_id", Json.str cfg.userId) ∈ categoriesBodyFields cfg
    ∧ ("agent_id", Json.str AGENT_ID) ∈ categoriesBodyFields cfg
    ∧ (deleteRequest cfg a).body = some (.obj (deleteBody cfg a))
    ∧ ("user_id", Json.str cfg.userId) ∈ deleteBody cfg a
    ∧ ((deleteBody cfg a).map Prod.fst).contains "agent_id" = truthyS a
    ∧ (statusRequest t).body = none := by
  refine ⟨rfl, ?_, ?_, rfl, ?_, ?_, rfl, ?_, ?_, rfl, ?_, ?_, rfl⟩
  · simp [memorizeBodyFields]
  · simp [memorizeBodyFields]
  · simp [retrieveBodyFields]
  · simp [retrieveBodyFields]
  · simp [categoriesBodyFields]
  · simp [categoriesBodyFields]
  · simp [deleteBody]
  · by_cases h : truthyS a <;> simp [deleteBody, h]

/-- Claim C10: delete with agent_id equal to the empty string sends the
same body as delete without agent_id, namely only user_id, and builds
the same request. -/
theorem delete_empty_agent_same_as_omitted (cfg : Config) :
    deleteBody cfg (some "") = deleteBody cfg none
    ∧ deleteBody cfg (some "") = [("user_id", Json.str cfg.userId)]
    ∧ deleteRequest cfg (some "") = deleteRequest cfg none :=
  ⟨rfl, rfl, rfl⟩

/-- Claim C8: a categories response with an absent or empty category
list yields exactly the fixed text; a non-empty list yields the header
followed by one bulleted entry per category, where the entry shows the
name, appends the description part exactly when the description is
present and non-empty, and appends the indented summary line exactly
when the summary is present and non-empty. -/
theorem categories_format (r : CategoriesResult) (c : Category) :
    ((r.categories.getD []).length = 0 → formatCategories r = noCategoriesText)
    ∧ ((r.categories.getD []).length ≠ 0 →
        formatCategories r = "## 記憶カテゴリ一覧\n"
          ++ joinSep "\n" ((r.categories.getD []).map categoryEntry))
    ∧ categoryEntry c
        = "- **" ++ c.name ++ "**"
          ++ (if truthyS c.description then ": " ++ c.description.getD "" else "")
          ++ (if truthyS c.summary then "\n  " ++ c.summary.getD "" else "")
    ∧ (c.description = none → c.summary = none →
        categoryEntry c = "- **" ++ c.name ++ "**") := by
  refine ⟨?_, ?_, ?_, ?_⟩
  · intro h
    simp [formatCategories, h]
  · intro h
    have hb : ((r.categories.getD []).length == 0) = false := by
      simpa using h
    simp [formatCategories, hb]
  · rfl
  · intro hd hs
    simp [categoryEntry, hd, hs, truthyS]

/-- Witness for C8 at the empty list and at a one-category list with a
description and no summary. -/
theorem categories_format_witness :
    formatCategories ⟨some []⟩ = noCategoriesText
    ∧ formatCategories ⟨some [⟨"preferences", some "d", none⟩]⟩
        = "## 記憶カテゴリ一覧\n- **preferences**: d" := by
  refine ⟨(categories_format ⟨some []⟩ ⟨"x", none, none⟩).1 (by decide), ?_⟩
  have h := (categories_format ⟨some [⟨"preferences", some "d", none⟩]⟩
    ⟨"preferences", some "d", none⟩).2.1 (by decide)
  exact h.trans (by rfl)

theorem joinSep_three (sep a b c : String) :
    joinSep sep [a, b, c] = a ++ sep ++ b ++ sep ++ c := by
  simp [joinSep, String.append_assoc]

/-- Claim C9: the memorize_status output is the newline-join of the
status line (status defaulting to UNKNOWN), then the start line when
created_at is present (and non-empty), then the completion line when
completed_at is present (and non-empty), in that order; in particular a
response carrying all three renders all three values in that order. -/
theorem memorize_status_format (r : StatusResult) :
    formatStatus r = joinSep "\n"
      (["ステータス: **" ++ r.status.getD "UNKNOWN" ++ "**"]
        ++ (if truthyS r.created_at then ["開始: " ++ r.created_at.getD ""] else [])
        ++ (if truthyS r.completed_at then ["完了: " ++ r.completed_at.getD ""] else []))
    ∧ (∀ s c d, r.status = some s → r.created_at = some c → r.completed_at = some d →
        c ≠ "" → d ≠ "" →
        formatStatus r
          = "ステータス: **" ++ s ++ "**" ++ "\n" ++ "開始: " ++ c
            ++ "\n" ++ "完了: " ++ d) := by
  constructor
  · unfold formatStatus
    by_cases h1 : truthyS r.created_at <;> by_cases h2 : truthyS r.completed_at <;>
      simp [h1, h2]
  · intro s c d hs hc hd hcne hdne
    have h1 : truthyS r.created_at = true := by rw [hc]; simp [truthyS, hcne]
    have h2 : truthyS r.completed_at = true := by rw [hd]; simp [truthyS, hdne]
    have hparts : formatStatus r
        = joinSep "\n" ["ステータス: **" ++ s ++ "**", "開始: " ++ c, "完了: " ++ d] := by
      simp only [formatStatus]
      rw [if_pos h1, if_pos h2, hs, hc, hd]
      simp only [Option.getD_some, List.cons_append, List.nil_append]
    rw [hparts, joinSep_three]
    simp only [String.append_assoc]

/-- Witness for C9 at the documented example response. -/
theorem memorize_status_format_witness :
    formatStatus ⟨some "SUCCESS", some "2024-01-01T00:00:00Z", some "2024-01-01T00:05:00Z"⟩
      = "ステータス: **SUCCESS**\n開始: 2024-01-01T00:00:00Z\n完了: 2024-01-01T00:05:00Z" := by
  have h := (memorize_status_format
      ⟨some "SUCCESS", some "2024-01-01T00:00:00Z", some "2024-01-01T00:05:00Z"⟩).2
    "SUCCESS" "2024-01-01T00:00:00Z" "2024-01-01T00:05:00Z" rfl rfl rfl
    (by decide) (by decide)
  exact h.trans (by rfl)
